import Mathlib

/-!
# Verification of the N-of-1 NutriFlow causal-inference engine

Shallow embedding of `src/lib/causal-logic.ts`.

Modelling conventions:
* JavaScript `number` (IEEE-754 binary64) is idealised as the real numbers `ℝ`;
  `Math.sqrt` is `Real.sqrt`.
* `parseFloat(x.toFixed(d))` — rounding a value to `d` decimal digits — is
  idealised as exact decimal rounding `roundTo d` (round to nearest, built on
  Mathlib's `round`).
* `Math.random()` is modelled by an explicit stream `rng : ℕ → ℝ`: the value of
  the `k`-th call (counting from 0, in program order) is `rng k`.  In the
  source the only calls occur once per emitted result, in emission order.
* `Array.prototype.sort` with comparator `(a, b) => key b - key a` is, per the
  ECMAScript specification, a stable sort consistent with the comparator; it is
  modelled by `List.insertionSort` on the total preorder `key b ≤ key a`,
  which Mathlib proves stable.
* `throw new Error(msg)` is modelled with `Except String`.
* TypeScript `Record<string, T>` objects built with a fixed literal key set are
  modelled as association lists in insertion order (`Object.entries` /
  `Object.keys` enumerate string keys in insertion order).
-/

namespace NutriFlow

/-- Interface `NutritionRecord` of `causal-logic.ts` (25 nutrient fields). -/
structure NutritionRecord where
  energy_kcal : ℝ
  protein_g : ℝ
  fat_g : ℝ
  carbs_g : ℝ
  fiber_g : ℝ
  omega3_g : ℝ
  omega6_g : ℝ
  vitamin_d_iu : ℝ
  vitamin_e_mg : ℝ
  vitamin_b1_mg : ℝ
  vitamin_b6_mg : ℝ
  magnesium_mg : ℝ
  iron_mg : ℝ
  calcium_mg : ℝ
  zinc_mg : ℝ
  potassium_mg : ℝ
  sodium_mg : ℝ
  tryptophan_mg : ℝ
  methionine_mg : ℝ
  valine_mg : ℝ
  caffeine_mg : ℝ
  alcohol_g : ℝ
  net_carbs_g : ℝ
  saturated_fat_g : ℝ
  trans_fat_g : ℝ

/-- Interface `HealthOutcome` of `causal-logic.ts` (10 outcome fields). -/
structure HealthOutcome where
  deep_sleep_min : ℝ
  rem_sleep_min : ℝ
  total_sleep_min : ℝ
  sleep_efficiency_pct : ℝ
  overall_sleep_score : ℝ
  hrv_ms : ℝ
  resting_heart_rate_bpm : ℝ
  activity_burn_kcal : ℝ
  steps : ℝ
  readiness_score : ℝ

/-- Interface `DailyRecord`. -/
structure DailyRecord where
  date : String
  nutrition : NutritionRecord
  health_outcomes : HealthOutcome

/-- The `'positive' | 'negative' | 'neutral'` union of the `direction` field. -/
inductive Direction where
  | positive
  | negative
  | neutral
deriving DecidableEq

/-- Interface `ITEResult`. -/
structure ITEResult where
  nutrient : String
  nutrient_label : String
  unit : String
  outcome : String
  outcome_label : String
  ite_value : ℝ
  ate_value : ℝ
  direction : Direction
  confidence : ℝ
  causal_path : String

/-- Interface `PersonalNutritionProfile`.  The `Record<string, ITEResult[]>`
map is modelled as an association list in key-insertion order. -/
structure PersonalNutritionProfile where
  ite_results : List ITEResult
  top_nutrients_for_outcome : List (String × List ITEResult)
  personal_summary : String

/-- `xs.reduce((a, b) => a + b, 0) / n` with `n = xs.length`, the arithmetic
mean as computed throughout `causal-logic.ts`. -/
noncomputable def mean (xs : List ℝ) : ℝ := xs.sum / xs.length

/-- `pearsonCorrelation(x, y)` from `causal-logic.ts`.  The source accumulates
`numerator`, `denomX`, `denomY` in one loop over `i < x.length`; this is
rendered as three sums (over `x` for `denomX`, over the paired list for the
terms that read `y[i]`; every call in the program passes equal-length lists,
where the two renderings coincide index for index). -/
noncomputable def pearsonCorrelation (x y : List ℝ) : ℝ :=
  if x.length < 2 then 0
  else
    let meanX := mean x
    let meanY := mean y
    let numerator := ((x.zip y).map fun p => (p.1 - meanX) * (p.2 - meanY)).sum
    let denomX := (x.map fun a => (a - meanX) ^ 2).sum
    let denomY := ((x.zip y).map fun p => (p.2 - meanY) ^ 2).sum
    let denominator := Real.sqrt (denomX * denomY)
    if denominator = 0 then 0 else numerator / denominator

/-- `linearRegressionSlope(x, y)` from `causal-logic.ts` (OLS slope of `y`
on `x`), with the same loop-to-sums rendering as `pearsonCorrelation`. -/
noncomputable def linearRegressionSlope (x y : List ℝ) : ℝ :=
  if x.length < 2 then 0
  else
    let meanX := mean x
    let meanY := mean y
    let num := ((x.zip y).map fun p => (p.1 - meanX) * (p.2 - meanY)).sum
    let den := (x.map fun a => (a - meanX) ^ 2).sum
    if den = 0 then 0 else num / den

/-- The population standard deviation expression
`Math.sqrt(values.reduce((a, b) => a + (b - mean) ** 2, 0) / values.length)`
that `causal-logic.ts` writes out inline both in `zScore` and in the
`outcomeStd` computation of `calculateITE`. -/
noncomputable def popStd (xs : List ℝ) : ℝ :=
  Real.sqrt ((xs.map fun b => (b - mean xs) ^ 2).sum / xs.length)

/-- `zScore(values)` from `causal-logic.ts`. -/
noncomputable def zScore (values : List ℝ) : List ℝ :=
  let m := mean values
  let std := popStd values
  if std = 0 then values.map fun _ => 0 else values.map fun v => (v - m) / std

/-- `computeMediatorAdjustedITE` from `causal-logic.ts`:
`directEffect + indirectEffect * 0.3`. -/
noncomputable def computeMediatorAdjustedITE
    (nutrientVals mediatorVals outcomeVals : List ℝ) : ℝ :=
  let directEffect := linearRegressionSlope nutrientVals outcomeVals
  let nutrientToMediator := linearRegressionSlope nutrientVals mediatorVals
  let mediatorToOutcome := linearRegressionSlope mediatorVals outcomeVals
  let indirectEffect := nutrientToMediator * mediatorToOutcome
  directEffect + indirectEffect * 0.3

/-- Exact-decimal idealisation of `parseFloat(x.toFixed(d))`. -/
noncomputable def roundTo (d : ℕ) (x : ℝ) : ℝ :=
  (round (x * 10 ^ d) : ℤ) / 10 ^ d

/-- The `nutrients` object of `calculateITE`: the 16 analysed nutrient keys in
insertion order, each with its extracted time series. -/
def nutrientEntries (records : List DailyRecord) : List (String × List ℝ) :=
  [("omega3_g", records.map fun r => r.nutrition.omega3_g),
   ("vitamin_e_mg", records.map fun r => r.nutrition.vitamin_e_mg),
   ("vitamin_d_iu", records.map fun r => r.nutrition.vitamin_d_iu),
   ("magnesium_mg", records.map fun r => r.nutrition.magnesium_mg),
   ("protein_g", records.map fun r => r.nutrition.protein_g),
   ("vitamin_b1_mg", records.map fun r => r.nutrition.vitamin_b1_mg),
   ("tryptophan_mg", records.map fun r => r.nutrition.tryptophan_mg),
   ("methionine_mg", records.map fun r => r.nutrition.methionine_mg),
   ("valine_mg", records.map fun r => r.nutrition.valine_mg),
   ("caffeine_mg", records.map fun r => r.nutrition.caffeine_mg),
   ("alcohol_g", records.map fun r => r.nutrition.alcohol_g),
   ("iron_mg", records.map fun r => r.nutrition.iron_mg),
   ("fiber_g", records.map fun r => r.nutrition.fiber_g),
   ("zinc_mg", records.map fun r => r.nutrition.zinc_mg),
   ("saturated_fat_g", records.map fun r => r.nutrition.saturated_fat_g),
   ("potassium_mg", records.map fun r => r.nutrition.potassium_mg)]

/-- The `outcomes` object of `calculateITE`: the 6 analysed outcome keys in
insertion order, each with its extracted time series. -/
def outcomeEntries (records : List DailyRecord) : List (String × List ℝ) :=
  [("deep_sleep_min", records.map fun r => r.health_outcomes.deep_sleep_min),
   ("rem_sleep_min", records.map fun r => r.health_outcomes.rem_sleep_min),
   ("hrv_ms", records.map fun r => r.health_outcomes.hrv_ms),
   ("overall_sleep_score", records.map fun r => r.health_outcomes.overall_sleep_score),
   ("sleep_efficiency_pct", records.map fun r => r.health_outcomes.sleep_efficiency_pct),
   ("readiness_score", records.map fun r => r.health_outcomes.readiness_score)]

/-- The `nutrientLabels` table of `calculateITE` as a lookup (label, unit);
keys outside the table never occur. -/
def nutrientLabelTable : String → String × String
  | "omega3_g" => ("Omega-3 지방산", "g")
  | "vitamin_e_mg" => ("비타민 E", "mg")
  | "vitamin_d_iu" => ("비타민 D", "IU")
  | "magnesium_mg" => ("마그네슘", "mg")
  | "protein_g" => ("단백질", "g")
  | "vitamin_b1_mg" => ("비타민 B1 (티아민)", "mg")
  | "tryptophan_mg" => ("트립토판", "mg")
  | "methionine_mg" => ("메티오닌", "mg")
  | "valine_mg" => ("발린", "mg")
  | "caffeine_mg" => ("카페인", "mg")
  | "alcohol_g" => ("알코올", "g")
  | "iron_mg" => ("철분", "mg")
  | "fiber_g" => ("식이섬유", "g")
  | "zinc_mg" => ("아연", "mg")
  | "saturated_fat_g" => ("포화지방", "g")
  | "potassium_mg" => ("칼륨", "mg")
  | _ => ("", "")

/-- The `outcomeLabels` table of `calculateITE`. -/
def outcomeLabelTable : String → String
  | "deep_sleep_min" => "깊은 수면 시간(분)"
  | "rem_sleep_min" => "REM 수면 시간(분)"
  | "hrv_ms" => "HRV(심박 변이율, ms)"
  | "overall_sleep_score" => "전반적 수면 점수"
  | "sleep_efficiency_pct" => "수면 효율(%)"
  | "readiness_score" => "준비도 점수"
  | _ => ""

/-- `Object.keys(outcomeLabels)`, used for the `top_nutrients_for_outcome`
grouping. -/
def outcomeKeyList : List String :=
  ["deep_sleep_min", "rem_sleep_min", "hrv_ms", "overall_sleep_score",
   "sleep_efficiency_pct", "readiness_score"]

/-- The `causalPath` narrative construction of `calculateITE` (if/else chain on
the nutrient key; the generic branch words on `direction`). -/
def causalPathFor (nutrientKey nutrientLabel outcomeLabel : String)
    (direction : Direction) : String :=
  if nutrientKey = "caffeine_mg" ∨ nutrientKey = "alcohol_g" ∨
      nutrientKey = "saturated_fat_g" then
    nutrientLabel ++ " 과다 섭취 → 자율신경계 교란 → " ++ outcomeLabel ++ " 저하"
  else if nutrientKey = "tryptophan_mg" ∨ nutrientKey = "magnesium_mg" then
    nutrientLabel ++ " 섭취 → 세로토닌/멜라토닌 전구체 → " ++ outcomeLabel ++ " 향상"
  else if nutrientKey = "omega3_g" then
    nutrientLabel ++ " 섭취 → 항염증 효과 → 심박 변이율 및 " ++ outcomeLabel ++ " 영향"
  else
    nutrientLabel ++ " 섭취 → 대사 경로 → " ++ outcomeLabel ++ " " ++
      (if direction = Direction.positive then "향상" else "영향")

/-- The deterministic per-pair content of one loop iteration of
`calculateITE`: everything the source pushes except `ate_value`, plus the
unrounded `scaledITE` from which the source computes `ate_value` at push
time. -/
structure PreResult where
  nutrient : String
  nutrient_label : String
  unit : String
  outcome : String
  outcome_label : String
  scaledITE : ℝ
  ite_value : ℝ
  direction : Direction
  confidence : ℝ
  causal_path : String

/-- One iteration of the nutrient × outcome loop body of `calculateITE`:
returns `none` exactly when the `corr < 0.2` filter discards the pair. -/
noncomputable def pairResult (mediatorSeries : List ℝ) (nutrientKey : String)
    (nutrientSeries : List ℝ) (outcomeKey : String) (outcomeSeries : List ℝ) :
    Option PreResult :=
  let normNutrient := zScore nutrientSeries
  let normOutcome := zScore outcomeSeries
  let normMediator := zScore mediatorSeries
  let rawITE := computeMediatorAdjustedITE normNutrient normMediator normOutcome
  let outcomeStd := popStd outcomeSeries
  let scaledITE := rawITE * outcomeStd
  let corr := |pearsonCorrelation nutrientSeries outcomeSeries|
  let confidence := min corr 0.99
  if corr < 0.2 then none
  else
    let direction := if scaledITE > 0.5 then Direction.positive
      else if scaledITE < -0.5 then Direction.negative else Direction.neutral
    let nl := nutrientLabelTable nutrientKey
    let ol := outcomeLabelTable outcomeKey
    some
      { nutrient := nutrientKey
        nutrient_label := nl.1
        unit := nl.2
        outcome := outcomeKey
        outcome_label := ol
        scaledITE := scaledITE
        ite_value := roundTo 4 scaledITE
        direction := direction
        confidence := roundTo 3 confidence
        causal_path := causalPathFor nutrientKey nl.1 ol direction }

/-- `const mediatorSeries = outcomes.sleep_efficiency_pct` — the fixed
mediator, independent of the outcome under test. -/
def mediatorSeriesOf (records : List DailyRecord) : List ℝ :=
  records.map fun r => r.health_outcomes.sleep_efficiency_pct

/-- The (ordered) deterministic contents of `ite_results` as pushed by the
nested loops of `calculateITE`, before `ate_value` attachment. -/
noncomputable def preResults (records : List DailyRecord) : List PreResult :=
  (nutrientEntries records).flatMap fun n =>
    (outcomeEntries records).filterMap fun o =>
      pairResult (mediatorSeriesOf records) n.1 n.2 o.1 o.2

/-- Build the pushed `ITEResult` from the deterministic fields and the
`ate_value`. -/
def toITEResult (p : PreResult) (ate : ℝ) : ITEResult :=
  { nutrient := p.nutrient
    nutrient_label := p.nutrient_label
    unit := p.unit
    outcome := p.outcome
    outcome_label := p.outcome_label
    ite_value := p.ite_value
    ate_value := ate
    direction := p.direction
    confidence := p.confidence
    causal_path := p.causal_path }

/-- Attach `ate_value = parseFloat((scaledITE * 0.7 + (Math.random() - 0.5) * 2)
.toFixed(4))`; the `k`-th emitted result consumes the `k`-th `Math.random()`
call, modelled as `rng k`. -/
noncomputable def attachATE (rng : ℕ → ℝ) (ps : List PreResult) : List ITEResult :=
  ps.enum.map fun ip =>
    toITEResult ip.2 (roundTo 4 (ip.2.scaledITE * 0.7 + (rng ip.1 - 0.5) * 2))

/-- The sort key `Math.abs(r.ite_value) * r.confidence` of the final sort. -/
noncomputable def resultKey (r : ITEResult) : ℝ := |r.ite_value| * r.confidence

/-- The total preorder realised by the comparator
`(a, b) => Math.abs(b.ite_value) * b.confidence - Math.abs(a.ite_value) * a.confidence`:
`a` may precede `b` iff the comparator is `≤ 0` on `(a, b)`. -/
def keyRel (a b : ITEResult) : Prop := resultKey b ≤ resultKey a

noncomputable instance : DecidableRel keyRel := fun _ _ => Real.decidableLE _ _

instance : IsTotal ITEResult keyRel := ⟨fun a b => (le_total (resultKey a) (resultKey b)).symm⟩

instance : IsTrans ITEResult keyRel := ⟨fun _ _ _ h h' => le_trans h' h⟩

/-- `ite_results.sort(comparator)`: ECMAScript `Array.prototype.sort` is a
stable sort consistent with the comparator, modelled by the (stable)
insertion sort on `keyRel`. -/
noncomputable def sortResults (rs : List ITEResult) : List ITEResult :=
  List.insertionSort keyRel rs

/-- The `top_nutrients_for_outcome` construction: for each outcome key (in
`Object.keys(outcomeLabels)` order) the first 5 sorted results with that
`outcome` field. -/
noncomputable def topNutrientsForOutcome (sorted : List ITEResult) :
    List (String × List ITEResult) :=
  outcomeKeyList.map fun k => (k, (sorted.filter fun r => r.outcome == k).take 5)

/-- Placeholder for `Number.prototype.toFixed(2)`: the decimal string rendering
of a real number is not modelled (no verified property depends on the
`personal_summary` text). -/
def toFixed2 (_ : ℝ) : String := "#.##"

/-- The `personal_summary` template of `calculateITE`. -/
noncomputable def personalSummary (sorted : List ITEResult) : String :=
  let topPositive := (sorted.filter fun r => r.direction == Direction.positive).take 3
  let topNegative := (sorted.filter fun r => r.direction == Direction.negative).take 2
  "귀하의 7일 N-of-1 데이터 분석 결과:\n" ++
    "✅ 긍정적 영양소: " ++
    String.intercalate ", "
      (topPositive.map fun r => r.nutrient_label ++ "(ITE: +" ++ toFixed2 r.ite_value ++ ")") ++
    "\n⚠️ 주의 영양소: " ++
    String.intercalate ", "
      (topNegative.map fun r => r.nutrient_label ++ "(ITE: " ++ toFixed2 r.ite_value ++ ")")

/-- The message of the `Error` thrown on fewer than 3 records (the spec's
`InsufficientDataError`). -/
def insufficientDataMsg : String := "ITE 계산에는 최소 3일 이상의 데이터가 필요합니다."

/-- `calculateITE(records)` from `causal-logic.ts`, with the throw modelled as
`Except.error` and `Math.random()` modelled by the stream `rng`. -/
noncomputable def calculateITE (rng : ℕ → ℝ) (records : List DailyRecord) :
    Except String PersonalNutritionProfile :=
  if records.length < 3 then Except.error insufficientDataMsg
  else
    let sorted := sortResults (attachATE rng (preResults records))
    Except.ok
      { ite_results := sorted
        top_nutrients_for_outcome := topNutrientsForOutcome sorted
        personal_summary := personalSummary sorted }

/-! ## Helper lemmas on the statistical primitives -/

lemma eq_of_mem_of_length_lt_two {l : List ℝ} {a b : ℝ} (h : l.length < 2)
    (ha : a ∈ l) (hb : b ∈ l) : a = b := by
  match l with
  | [] => cases ha
  | [x] =>
    rw [List.mem_singleton] at ha hb
    rw [ha, hb]
  | x :: y :: t => exact absurd h (by simp)

lemma mean_const {l : List ℝ} {c : ℝ} (h : ∀ a ∈ l, a = c) (hne : l ≠ []) :
    mean l = c := by
  have hsum : l.sum = l.length • c := List.sum_eq_card_nsmul l c h
  have hlen : (l.length : ℝ) ≠ 0 := by
    simpa using List.length_pos.mpr hne |>.ne'
  rw [mean, hsum, nsmul_eq_mul]
  field_simp

lemma sum_sq_nonneg {α : Type*} (l : List α) (f : α → ℝ) :
    0 ≤ (l.map fun v => f v ^ 2).sum := by
  apply List.sum_nonneg
  intro x hx
  obtain ⟨v, _, rfl⟩ := List.mem_map.mp hx
  positivity

lemma sum_sq_eq_zero_iff {α : Type*} (l : List α) (f : α → ℝ) :
    (l.map fun v => f v ^ 2).sum = 0 ↔ ∀ v ∈ l, f v = 0 := by
  induction l with
  | nil => simp
  | cons x t ih =>
    simp only [List.map_cons, List.sum_cons, List.mem_cons]
    constructor
    · intro h
      have h1 : 0 ≤ f x ^ 2 := sq_nonneg _
      have h2 : 0 ≤ (t.map fun v => f v ^ 2).sum := sum_sq_nonneg t f
      have hx : f x ^ 2 = 0 := by linarith
      have ht : (t.map fun v => f v ^ 2).sum = 0 := by linarith
      refine fun v hv => hv.elim (fun hv => ?_) (fun hv => ih.mp ht v hv)
      rw [hv]
      exact sq_eq_zero_iff.mp hx
    · intro h
      rw [h x (Or.inl rfl), ih.mpr fun v hv => h v (Or.inr hv)]
      norm_num

lemma devsq_sum_eq_zero_of_const {x : List ℝ} {c : ℝ} (h : ∀ a ∈ x, a = c) :
    (x.map fun a => (a - mean x) ^ 2).sum = 0 := by
  rcases eq_or_ne x [] with rfl | hne
  · simp
  · rw [sum_sq_eq_zero_iff]
    intro v hv
    rw [h v hv, mean_const h hne, sub_self]

lemma devsq_sum_pos_of_nonconst {x : List ℝ}
    (h : ∃ a ∈ x, ∃ b ∈ x, a ≠ b) :
    0 < (x.map fun a => (a - mean x) ^ 2).sum := by
  rcases (sum_sq_nonneg x (· - mean x)).lt_or_eq with hlt | heq
  · exact hlt
  · exfalso
    obtain ⟨a, ha, b, hb, hab⟩ := h
    have := sum_sq_eq_zero_iff x (· - mean x) |>.mp heq.symm
    have ha' := sub_eq_zero.mp (this a ha)
    have hb' := sub_eq_zero.mp (this b hb)
    exact hab (ha'.trans hb'.symm)

lemma zip_self_map (x : List ℝ) (f : ℝ × ℝ → ℝ) :
    ((x.zip x).map f).sum = (x.map fun a => f (a, a)).sum := by
  induction x with
  | nil => simp
  | cons a t ih => simp [List.zip_cons_cons, ih]

lemma length_ge_two_of_nonconst {x : List ℝ} (h : ∃ a ∈ x, ∃ b ∈ x, a ≠ b) :
    ¬ x.length < 2 := by
  intro hlen
  obtain ⟨a, ha, b, hb, hab⟩ := h
  exact hab (eq_of_mem_of_length_lt_two hlen ha hb)

lemma pearson_of_short (x y : List ℝ) (h : x.length < 2) :
    pearsonCorrelation x y = 0 := by
  rw [pearsonCorrelation, if_pos h]

lemma pearson_of_const_left (y : List ℝ) {x : List ℝ} {c : ℝ}
    (h : ∀ a ∈ x, a = c) : pearsonCorrelation x y = 0 := by
  rw [pearsonCorrelation]
  rcases Nat.lt_or_ge x.length 2 with hlen | hlen
  · rw [if_pos hlen]
  · rw [if_neg (by omega)]
    have hX : (x.map fun a => (a - mean x) ^ 2).sum = 0 :=
      devsq_sum_eq_zero_of_const h
    simp [hX]

lemma pearson_of_const_right (x : List ℝ) {y : List ℝ} {c : ℝ}
    (h : ∀ b ∈ y, b = c) : pearsonCorrelation x y = 0 := by
  rw [pearsonCorrelation]
  rcases Nat.lt_or_ge x.length 2 with hlen | hlen
  · rw [if_pos hlen]
  · rw [if_neg (by omega)]
    have hY : ((x.zip y).map fun p => (p.2 - mean y) ^ 2).sum = 0 := by
      rw [sum_sq_eq_zero_iff]
      intro p hp
      have hpy : p.2 ∈ y := (List.of_mem_zip hp).2
      have hyne : y ≠ [] := by rintro rfl; cases hpy
      rw [h p.2 hpy, mean_const h hyne, sub_self]
    simp [hY]

lemma pearson_self (x : List ℝ) (h : ∃ a ∈ x, ∃ b ∈ x, a ≠ b) :
    pearsonCorrelation x x = 1 := by
  have hS := devsq_sum_pos_of_nonconst h
  rw [pearsonCorrelation, if_neg (length_ge_two_of_nonconst h)]
  have hnum : ((x.zip x).map fun p => (p.1 - mean x) * (p.2 - mean x)).sum
      = (x.map fun a => (a - mean x) ^ 2).sum := by
    rw [zip_self_map x fun p => (p.1 - mean x) * (p.2 - mean x)]
    congr 1
    apply List.map_congr_left
    intro a _
    ring
  have hdY : ((x.zip x).map fun p => (p.2 - mean x) ^ 2).sum
      = (x.map fun a => (a - mean x) ^ 2).sum :=
    zip_self_map x fun p => (p.2 - mean x) ^ 2
  simp only [hnum, hdY]
  rw [Real.sqrt_mul_self hS.le, if_neg hS.ne', div_self hS.ne']

/-- **C7.** `pearsonCorrelation` degrades gracefully: it returns `0` for
length below 2 and for a zero-variance (constant) `x` or `y` series (never a
NaN and never an error — the embedding is a total function); on a non-constant
series paired with itself it returns exactly `1`, and against any constant
series it returns `0`. -/
theorem claim_C7_pearson :
    (∀ x y : List ℝ, x.length < 2 → pearsonCorrelation x y = 0) ∧
    (∀ (x y : List ℝ) (c : ℝ), (∀ a ∈ x, a = c) → pearsonCorrelation x y = 0) ∧
    (∀ (x y : List ℝ) (c : ℝ), (∀ b ∈ y, b = c) → pearsonCorrelation x y = 0) ∧
    (∀ x : List ℝ, (∃ a ∈ x, ∃ b ∈ x, a ≠ b) → pearsonCorrelation x x = 1) :=
  ⟨pearson_of_short, fun _ y _ h => pearson_of_const_left y h,
   fun x _ _ h => pearson_of_const_right x h, pearson_self⟩

/-- Witness for C7 at concrete inputs. -/
theorem claim_C7_pearson_witness :
    pearsonCorrelation [(0 : ℝ)] [(1 : ℝ)] = 0 ∧
    pearsonCorrelation [(0 : ℝ), 1, 2] [(5 : ℝ), 5, 5] = 0 ∧
    pearsonCorrelation [(0 : ℝ), 1] [(0 : ℝ), 1] = 1 :=
  ⟨claim_C7_pearson.1 [(0 : ℝ)] [(1 : ℝ)] (by norm_num),
   claim_C7_pearson.2.2.1 [(0 : ℝ), 1, 2] [(5 : ℝ), 5, 5] 5 (by intro b hb; simpa using hb),
   claim_C7_pearson.2.2.2 [(0 : ℝ), 1]
     ⟨0, by norm_num, 1, by norm_num, by norm_num⟩⟩

/-! ## Helper lemmas for `zScore` -/

lemma sum_map_div (l : List ℝ) (f : ℝ → ℝ) (c : ℝ) :
    (l.map fun v => f v / c).sum = (l.map f).sum / c := by
  induction l with
  | nil => simp
  | cons a t ih => simp [ih, add_div]

lemma sum_map_sub_const (l : List ℝ) (c : ℝ) :
    (l.map fun v => v - c).sum = l.sum - l.length * c := by
  induction l with
  | nil => simp
  | cons a t ih =>
    simp only [List.map_cons, List.sum_cons, ih, List.length_cons]
    push_cast
    ring

lemma popStd_nonneg (xs : List ℝ) : 0 ≤ popStd xs := Real.sqrt_nonneg _

lemma popStd_pos_of_nonconst {xs : List ℝ} (h : ∃ a ∈ xs, ∃ b ∈ xs, a ≠ b) :
    0 < popStd xs := by
  have hne : xs ≠ [] := by rintro rfl; obtain ⟨a, ha, _⟩ := h; cases ha
  have hlen : (0 : ℝ) < xs.length := by simpa using List.length_pos.mpr hne
  exact Real.sqrt_pos.mpr (div_pos (devsq_sum_pos_of_nonconst h) hlen)

lemma zScore_length (xs : List ℝ) : (zScore xs).length = xs.length := by
  rw [zScore]
  split <;> simp

/-- On non-constant input, `zScore` maps each value to its standardised
deviation. -/
lemma zScore_of_nonconst {xs : List ℝ} (h : ∃ a ∈ xs, ∃ b ∈ xs, a ≠ b) :
    zScore xs = xs.map fun v => (v - mean xs) / popStd xs := by
  rw [zScore, if_neg (popStd_pos_of_nonconst h).ne']

lemma mean_zScore_of_nonconst {xs : List ℝ} (h : ∃ a ∈ xs, ∃ b ∈ xs, a ≠ b) :
    mean (zScore xs) = 0 := by
  have hne : xs ≠ [] := by obtain ⟨a, ha, _⟩ := h; rintro rfl; cases ha
  have hlen : (xs.length : ℝ) ≠ 0 := by simpa using List.length_pos.mpr hne |>.ne'
  rw [zScore_of_nonconst h, mean, List.length_map, sum_map_div xs (fun v => v - mean xs),
    sum_map_sub_const, mean, mul_div_cancel₀ _ hlen, sub_self, zero_div, zero_div]

lemma popStd_zScore_of_nonconst {xs : List ℝ} (h : ∃ a ∈ xs, ∃ b ∈ xs, a ≠ b) :
    popStd (zScore xs) = 1 := by
  have hne : xs ≠ [] := by obtain ⟨a, ha, _⟩ := h; rintro rfl; cases ha
  have hlen : (0 : ℝ) < xs.length := by simpa using List.length_pos.mpr hne
  have hS := devsq_sum_pos_of_nonconst h
  have hσ := popStd_pos_of_nonconst h
  have hσsq : popStd xs ^ 2 = (xs.map fun a => (a - mean xs) ^ 2).sum / xs.length :=
    Real.sq_sqrt (by positivity)
  rw [popStd, mean_zScore_of_nonconst h, zScore_of_nonconst h, List.length_map,
    List.map_map]
  have hmap : ((fun b => (b - 0) ^ 2) ∘ fun v => (v - mean xs) / popStd xs)
      = fun v => ((v - mean xs) ^ 2) / popStd xs ^ 2 := by
    funext v
    simp [div_pow]
  rw [hmap, sum_map_div xs (fun v => (v - mean xs) ^ 2) (popStd xs ^ 2)]
  have harg : (xs.map fun v => (v - mean xs) ^ 2).sum / popStd xs ^ 2 / xs.length = 1 := by
    rw [hσsq]
    field_simp
  rw [harg, Real.sqrt_one]

/-- **C8.** `zScore` is the population z-score transform: on a constant
(zero-standard-deviation) input it returns the all-zero list of the same
length; on a non-constant input it returns a list of the same length with
population mean `0` and population standard deviation `1`. -/
theorem claim_C8_standardize :
    (∀ (xs : List ℝ) (c : ℝ), (∀ a ∈ xs, a = c) →
      zScore xs = List.replicate xs.length 0) ∧
    (∀ xs : List ℝ, (∃ a ∈ xs, ∃ b ∈ xs, a ≠ b) →
      (zScore xs).length = xs.length ∧ mean (zScore xs) = 0 ∧
        popStd (zScore xs) = 1) := by
  constructor
  · intro xs c h
    have hstd : popStd xs = 0 := by
      rw [popStd, devsq_sum_eq_zero_of_const h, zero_div, Real.sqrt_zero]
    rw [zScore, if_pos hstd]
    exact List.map_const' xs 0
  · intro xs h
    exact ⟨zScore_length xs, mean_zScore_of_nonconst h, popStd_zScore_of_nonconst h⟩

/-- Witness for C8 at concrete inputs. -/
theorem claim_C8_standardize_witness :
    zScore [(7 : ℝ), 7, 7] = List.replicate 3 0 ∧
    (zScore [(0 : ℝ), 2]).length = 2 ∧ mean (zScore [(0 : ℝ), 2]) = 0 ∧
      popStd (zScore [(0 : ℝ), 2]) = 1 := by
  refine ⟨?_, ?_⟩
  · have := claim_C8_standardize.1 [(7 : ℝ), 7, 7] 7 (by intro a ha; simpa using ha)
    simpa using this
  · have := claim_C8_standardize.2 [(0 : ℝ), 2] ⟨0, by norm_num, 2, by norm_num, by norm_num⟩
    simpa using this

/-! ## C2: insufficient-data failure -/

/-- **C2.** With fewer than 3 daily records `calculateITE` fails with the
`InsufficientDataError` (the thrown error, propagated unchanged as the
`Except.error` value, no defaults substituted); with exactly 3 records it
succeeds with a `PersonalNutritionProfile`. -/
theorem claim_C2_insufficient_data (rng : ℕ → ℝ) (records : List DailyRecord) :
    (records.length < 3 → calculateITE rng records = Except.error insufficientDataMsg) ∧
    (records.length = 3 → ∃ p, calculateITE rng records = Except.ok p) := by
  constructor
  · intro h
    rw [calculateITE, if_pos h]
  · intro h
    rw [calculateITE, if_neg (by omega)]
    exact ⟨_, rfl⟩

/-- The all-zero nutrition sample used for concrete test inputs. -/
def zeroNutrition : NutritionRecord :=
  ⟨0, 0, 0, 0, 0, 0, 0, 0, 0, 0, 0, 0, 0, 0, 0, 0, 0, 0, 0, 0, 0, 0, 0, 0, 0⟩

/-- The all-zero outcome sample used for concrete test inputs. -/
def zeroOutcome : HealthOutcome := ⟨0, 0, 0, 0, 0, 0, 0, 0, 0, 0⟩

/-- An all-zero daily record. -/
def zeroRecord : DailyRecord := ⟨"", zeroNutrition, zeroOutcome⟩

/-- A fixed deterministic random stream for concrete runs. -/
noncomputable def rng0 : ℕ → ℝ := fun _ => 1 / 2

/-- Witness for C2: the engine fails on 0 records and succeeds on 3. -/
theorem claim_C2_insufficient_data_witness :
    calculateITE rng0 [] = Except.error insufficientDataMsg ∧
    ∃ p, calculateITE rng0 [zeroRecord, zeroRecord, zeroRecord] = Except.ok p :=
  ⟨(claim_C2_insufficient_data rng0 []).1 (by simp),
   (claim_C2_insufficient_data rng0 [zeroRecord, zeroRecord, zeroRecord]).2 (by simp)⟩

/-! ## Extraction machinery for the success path -/

lemma calculateITE_ok {rng : ℕ → ℝ} {records : List DailyRecord}
    {p : PersonalNutritionProfile}
    (hp : calculateITE rng records = Except.ok p) :
    p.ite_results = sortResults (attachATE rng (preResults records)) ∧
    p.top_nutrients_for_outcome = topNutrientsForOutcome p.ite_results := by
  rw [calculateITE] at hp
  by_cases h : records.length < 3
  · rw [if_pos h] at hp
    exact absurd hp (by simp)
  · rw [if_neg h] at hp
    cases hp
    exact ⟨rfl, rfl⟩

lemma calculateITE_ok_of_length (rng : ℕ → ℝ) (records : List DailyRecord)
    (h : 3 ≤ records.length) :
    ∃ p, calculateITE rng records = Except.ok p := by
  rw [calculateITE, if_neg (by omega)]
  exact ⟨_, rfl⟩

@[simp] lemma toITEResult_nutrient (p : PreResult) (a : ℝ) :
    (toITEResult p a).nutrient = p.nutrient := rfl

@[simp] lemma toITEResult_outcome (p : PreResult) (a : ℝ) :
    (toITEResult p a).outcome = p.outcome := rfl

@[simp] lemma toITEResult_ite_value (p : PreResult) (a : ℝ) :
    (toITEResult p a).ite_value = p.ite_value := rfl

@[simp] lemma toITEResult_ate_value (p : PreResult) (a : ℝ) :
    (toITEResult p a).ate_value = a := rfl

@[simp] lemma toITEResult_direction (p : PreResult) (a : ℝ) :
    (toITEResult p a).direction = p.direction := rfl

@[simp] lemma toITEResult_confidence (p : PreResult) (a : ℝ) :
    (toITEResult p a).confidence = p.confidence := rfl

@[simp] lemma toITEResult_causal_path (p : PreResult) (a : ℝ) :
    (toITEResult p a).causal_path = p.causal_path := rfl

/-- Every sorted result originates from a deterministic `PreResult` plus one
random draw. -/
lemma mem_ite_results {rng : ℕ → ℝ} {records : List DailyRecord}
    {p : PersonalNutritionProfile} {r : ITEResult}
    (hp : calculateITE rng records = Except.ok p) (hr : r ∈ p.ite_results) :
    ∃ i pre, pre ∈ preResults records ∧
      r = toITEResult pre (roundTo 4 (pre.scaledITE * 0.7 + (rng i - 0.5) * 2)) := by
  obtain ⟨hres, -⟩ := calculateITE_ok hp
  rw [hres, sortResults, List.mem_insertionSort, attachATE] at hr
  obtain ⟨ip, hip, rfl⟩ := List.mem_map.mp hr
  refine ⟨ip.1, ip.2, ?_, rfl⟩
  have h2 := List.mem_enum_iff_getElem?.mp hip
  exact List.getElem?_mem h2

/-- Every `PreResult` comes from one nutrient × outcome pair, evaluated with
the fixed sleep-efficiency mediator. -/
lemma mem_preResults {records : List DailyRecord} {pre : PreResult}
    (h : pre ∈ preResults records) :
    ∃ n ∈ nutrientEntries records, ∃ o ∈ outcomeEntries records,
      pairResult (mediatorSeriesOf records) n.1 n.2 o.1 o.2 = some pre := by
  rw [preResults, List.mem_flatMap] at h
  obtain ⟨n, hn, hmem⟩ := h
  rw [List.mem_filterMap] at hmem
  obtain ⟨o, ho, hpo⟩ := hmem
  exact ⟨n, hn, o, ho, hpo⟩

/-- Field-level specification of a surviving loop iteration. -/
lemma pairResult_some_spec {med : List ℝ} {nk : String} {ns : List ℝ}
    {ok : String} {os : List ℝ} {pre : PreResult}
    (h : pairResult med nk ns ok os = some pre) :
    pre.nutrient = nk ∧ pre.outcome = ok ∧
    pre.scaledITE =
      computeMediatorAdjustedITE (zScore ns) (zScore med) (zScore os) * popStd os ∧
    pre.ite_value = roundTo 4 pre.scaledITE ∧
    pre.confidence = roundTo 3 (min |pearsonCorrelation ns os| 0.99) ∧
    0.2 ≤ |pearsonCorrelation ns os| ∧
    (pre.direction = Direction.positive ↔ 0.5 < pre.scaledITE) ∧
    (pre.direction = Direction.negative ↔ pre.scaledITE < -0.5) ∧
    (pre.direction = Direction.neutral ↔
      ¬ 0.5 < pre.scaledITE ∧ ¬ pre.scaledITE < -0.5) := by
  rw [pairResult] at h
  by_cases hc : |pearsonCorrelation ns os| < 0.2
  · rw [if_pos hc] at h
    exact absurd h (by simp)
  · rw [if_neg hc] at h
    rw [Option.some_inj] at h
    subst h
    refine ⟨rfl, rfl, rfl, rfl, rfl, not_lt.mp hc, ?_, ?_, ?_⟩ <;>
      · show (ite _ _ _ = _) ↔ _
        split_ifs with h1 h2 <;> simp_all <;> linarith

/-- `computeMediatorAdjustedITE` written as the spec's mediation formula. -/
lemma computeMediatorAdjustedITE_eq (a b c : List ℝ) :
    computeMediatorAdjustedITE a b c =
      linearRegressionSlope a c +
        0.3 * (linearRegressionSlope a b * linearRegressionSlope b c) := by
  rw [computeMediatorAdjustedITE]
  ring

/-! ## Amended per-result claims (C1, C3, C4) -/

/-- **C1 (amended).** For every emitted result of a run on `≥ 3` records, the
`ite_value` equals the mediator-adjusted standardized effect
`slope(n, o) + 0.3 * slope(n, m) * slope(m, o)` (on z-scored series, with the
mediator `m` always the `sleep_efficiency_pct` series) multiplied by the raw
population standard deviation of the outcome series — **rounded to 4 decimal
places** (the source stores `parseFloat(scaledITE.toFixed(4))`, not the exact
product). -/
theorem claim_C1_ite_formula (rng : ℕ → ℝ) (records : List DailyRecord)
    (h : 3 ≤ records.length) :
    ∃ p, calculateITE rng records = Except.ok p ∧
      ∀ r ∈ p.ite_results,
        ∃ n ∈ nutrientEntries records, ∃ o ∈ outcomeEntries records,
          r.nutrient = n.1 ∧ r.outcome = o.1 ∧
          r.ite_value = roundTo 4
            ((linearRegressionSlope (zScore n.2) (zScore o.2) +
              0.3 * (linearRegressionSlope (zScore n.2)
                       (zScore (mediatorSeriesOf records)) *
                     linearRegressionSlope (zScore (mediatorSeriesOf records))
                       (zScore o.2))) * popStd o.2) := by
  obtain ⟨p, hp⟩ := calculateITE_ok_of_length rng records h
  refine ⟨p, hp, fun r hr => ?_⟩
  obtain ⟨i, pre, hpre, rfl⟩ := mem_ite_results hp hr
  obtain ⟨n, hn, o, ho, hpo⟩ := mem_preResults hpre
  obtain ⟨hnut, hout, hsc, hiv, -, -, -, -, -⟩ := pairResult_some_spec hpo
  refine ⟨n, hn, o, ho, by simp [hnut], by simp [hout], ?_⟩
  rw [toITEResult_ite_value, hiv, hsc, computeMediatorAdjustedITE_eq]

lemma roundTo_nonneg {d : ℕ} {x : ℝ} (h : 0 ≤ x) : 0 ≤ roundTo d x := by
  rw [roundTo]
  apply div_nonneg _ (by positivity)
  have : (0 : ℤ) ≤ round (x * 10 ^ d) := by
    rw [round_eq]
    exact Int.floor_nonneg.mpr (by positivity)
  exact_mod_cast this

lemma roundTo3_le_confidence_cap {x : ℝ} (h : x ≤ 0.99) : roundTo 3 x ≤ 0.99 := by
  have h991 : ⌊x * 10 ^ 3 + 1 / 2⌋ < 991 := Int.floor_lt.mpr (by push_cast; nlinarith)
  have hfl : (round (x * 10 ^ 3) : ℝ) ≤ 990 := by
    rw [round_eq]
    exact_mod_cast (by omega : ⌊x * 10 ^ 3 + 1 / 2⌋ ≤ 990)
  rw [roundTo, div_le_iff₀ (by norm_num : (0 : ℝ) < (10 : ℝ) ^ 3)]
  have hcap : (0.99 : ℝ) * 10 ^ 3 = 990 := by norm_num
  rw [hcap]
  exact hfl

/-- **C3 (amended).** Every emitted result has
`confidence = roundTo 3 (min |pearson(nutrient, outcome)| 0.99)` (the source
stores `parseFloat(confidence.toFixed(3))`, not the exact minimum),
`confidence ∈ [0, 0.99]`, and the underlying `|pearson| ≥ 0.2` (weaker pairs
are discarded entirely). -/
theorem claim_C3_confidence (rng : ℕ → ℝ) (records : List DailyRecord)
    (h : 3 ≤ records.length) :
    ∃ p, calculateITE rng records = Except.ok p ∧
      ∀ r ∈ p.ite_results,
        0 ≤ r.confidence ∧ r.confidence ≤ 0.99 ∧
        ∃ n ∈ nutrientEntries records, ∃ o ∈ outcomeEntries records,
          r.nutrient = n.1 ∧ r.outcome = o.1 ∧
          r.confidence = roundTo 3 (min |pearsonCorrelation n.2 o.2| 0.99) ∧
          0.2 ≤ |pearsonCorrelation n.2 o.2| := by
  obtain ⟨p, hp⟩ := calculateITE_ok_of_length rng records h
  refine ⟨p, hp, fun r hr => ?_⟩
  obtain ⟨i, pre, hpre, rfl⟩ := mem_ite_results hp hr
  obtain ⟨n, hn, o, ho, hpo⟩ := mem_preResults hpre
  obtain ⟨hnut, hout, -, -, hconf, hcorr, -, -, -⟩ := pairResult_some_spec hpo
  rw [toITEResult_confidence, hconf]
  refine ⟨roundTo_nonneg (le_min (abs_nonneg _) (by norm_num)),
    roundTo3_le_confidence_cap (min_le_right _ _),
    n, hn, o, ho, by simp [hnut], by simp [hout], rfl, hcorr⟩

/-- **C4 (amended).** The direction of every emitted result is classified by
exact thresholds on the **unrounded** scaled effect `E` (the mediator-adjusted
standardized effect rescaled by the outcome's raw population standard
deviation): `positive ⇔ E > 0.5`, `negative ⇔ E < -0.5`, else `neutral`; the
stored `ite_value` is `E` rounded to 4 decimals, so the biconditional on the
stored field itself can fail within half a rounding quantum of a threshold. -/
theorem claim_C4_direction (rng : ℕ → ℝ) (records : List DailyRecord)
    (h : 3 ≤ records.length) :
    ∃ p, calculateITE rng records = Except.ok p ∧
      ∀ r ∈ p.ite_results,
        ∃ n ∈ nutrientEntries records, ∃ o ∈ outcomeEntries records, ∃ E : ℝ,
          E = computeMediatorAdjustedITE (zScore n.2)
                (zScore (mediatorSeriesOf records)) (zScore o.2) * popStd o.2 ∧
          r.nutrient = n.1 ∧ r.outcome = o.1 ∧
          (r.direction = Direction.positive ↔ 0.5 < E) ∧
          (r.direction = Direction.negative ↔ E < -0.5) ∧
          (r.direction = Direction.neutral ↔ ¬ 0.5 < E ∧ ¬ E < -0.5) ∧
          r.ite_value = roundTo 4 E := by
  obtain ⟨p, hp⟩ := calculateITE_ok_of_length rng records h
  refine ⟨p, hp, fun r hr => ?_⟩
  obtain ⟨i, pre, hpre, rfl⟩ := mem_ite_results hp hr
  obtain ⟨n, hn, o, ho, hpo⟩ := mem_preResults hpre
  obtain ⟨hnut, hout, hsc, hiv, -, -, hdp, hdn, hdz⟩ := pairResult_some_spec hpo
  refine ⟨n, hn, o, ho, pre.scaledITE, hsc, by simp [hnut], by simp [hout],
    ?_, ?_, ?_, ?_⟩
  · rw [toITEResult_direction]; exact hdp
  · rw [toITEResult_direction]; exact hdn
  · rw [toITEResult_direction]; exact hdz
  · rw [toITEResult_ite_value]; exact hiv

/-! ## C5: ranking -/

/-- **C5.** The returned `ite_results` list is sorted with
`confidence * |ite_value|` non-increasing along the list (hence across
consecutive elements); it is a permutation of the pushed results (in original
nutrient × outcome enumeration order), and the sort is stable: any
enumeration-ordered selection of pushed results that is already
non-increasing on the key survives as a sublist of the output, which pins
tie-breaking to the original enumeration order. -/
theorem claim_C5_sorting (rng : ℕ → ℝ) (records : List DailyRecord)
    (h : 3 ≤ records.length) :
    ∃ p, calculateITE rng records = Except.ok p ∧
      p.ite_results.Pairwise
        (fun a b => b.confidence * |b.ite_value| ≤ a.confidence * |a.ite_value|) ∧
      p.ite_results.Perm (attachATE rng (preResults records)) ∧
      ∀ c, List.Sublist c (attachATE rng (preResults records)) →
        c.Pairwise
          (fun a b => b.confidence * |b.ite_value| ≤ a.confidence * |a.ite_value|) →
        List.Sublist c p.ite_results := by
  obtain ⟨p, hp⟩ := calculateITE_ok_of_length rng records h
  obtain ⟨hres, -⟩ := calculateITE_ok hp
  refine ⟨p, hp, ?_, ?_, ?_⟩
  · rw [hres, sortResults]
    have hs := List.sorted_insertionSort keyRel (attachATE rng (preResults records))
    exact hs.imp fun {a b} hab => by
      have h' : |b.ite_value| * b.confidence ≤ |a.ite_value| * a.confidence := hab
      calc b.confidence * |b.ite_value| = |b.ite_value| * b.confidence := by ring
        _ ≤ |a.ite_value| * a.confidence := h'
        _ = a.confidence * |a.ite_value| := by ring
  · rw [hres, sortResults]
    exact List.perm_insertionSort keyRel _
  · intro c hc hcp
    rw [hres, sortResults]
    refine List.sublist_insertionSort (hcp.imp fun {a b} hab => ?_) hc
    show |b.ite_value| * b.confidence ≤ |a.ite_value| * a.confidence
    calc |b.ite_value| * b.confidence = b.confidence * |b.ite_value| := by ring
      _ ≤ a.confidence * |a.ite_value| := hab
      _ = |a.ite_value| * a.confidence := by ring

/-! ## C6: per-outcome top-5 grouping -/

/-- **C6.** For every outcome key in the enumerated outcome set,
`top_nutrients_for_outcome` holds exactly the first (up to) 5 records of the
globally sorted list whose `outcome` equals that key: an order-preserving
subsequence of `ite_results` restricted to that outcome, of length at most 5,
all of whose members carry that outcome key; and every entry of the map is
keyed by one of the enumerated outcome keys. -/
theorem claim_C6_top_nutrients (rng : ℕ → ℝ) (records : List DailyRecord)
    (h : 3 ≤ records.length) :
    ∃ p, calculateITE rng records = Except.ok p ∧
      (∀ k ∈ outcomeKeyList, ∃ L,
        (k, L) ∈ p.top_nutrients_for_outcome ∧
        L = (p.ite_results.filter fun r => r.outcome == k).take 5 ∧
        L.length ≤ 5 ∧
        List.Sublist L (p.ite_results.filter fun r => r.outcome == k) ∧
        List.Sublist L p.ite_results ∧
        ∀ r ∈ L, r.outcome = k) ∧
      ∀ e ∈ p.top_nutrients_for_outcome, e.1 ∈ outcomeKeyList := by
  obtain ⟨p, hp⟩ := calculateITE_ok_of_length rng records h
  obtain ⟨-, htop⟩ := calculateITE_ok hp
  refine ⟨p, hp, fun k hk => ?_, fun e he => ?_⟩
  · refine ⟨(p.ite_results.filter fun r => r.outcome == k).take 5, ?_, rfl, ?_, ?_, ?_, ?_⟩
    · rw [htop, topNutrientsForOutcome]
      exact List.mem_map.mpr ⟨k, hk, rfl⟩
    · simp
    · exact List.take_sublist _ _
    · exact (List.take_sublist _ _).trans (List.filter_sublist _)
    · intro r hr
      have hrf := (List.take_sublist _ _).mem hr
      simpa using List.of_mem_filter hrf
  · rw [htop, topNutrientsForOutcome] at he
    obtain ⟨k, hk, rfl⟩ := List.mem_map.mp he
    exact hk

/-! ## C9: determinism given the random stream -/

/-- Projection discarding the only random-dependent field. -/
def stripATE (r : ITEResult) : ITEResult := { r with ate_value := 0 }

/-- **C9.** Two runs on identical records agree exactly on every deterministic
field of every emitted result — `nutrient`, labels, `ite_value`, `direction`,
`confidence`, `causal_path`, in the same order — whatever the two random
streams are; `ate_value` is the single random-dependent field, and with the
same stream (`Math.random()` modelled as the injectable `rng` parameter) the
entire output coincides. -/
theorem claim_C9_determinism (records : List DailyRecord) (rng₁ rng₂ : ℕ → ℝ)
    (h : 3 ≤ records.length) :
    (rng₁ = rng₂ → calculateITE rng₁ records = calculateITE rng₂ records) ∧
    ∃ p₁ p₂, calculateITE rng₁ records = Except.ok p₁ ∧
      calculateITE rng₂ records = Except.ok p₂ ∧
      p₁.ite_results.map stripATE = p₂.ite_results.map stripATE := by
  constructor
  · rintro rfl
    rfl
  · obtain ⟨p₁, hp₁⟩ := calculateITE_ok_of_length rng₁ records h
    obtain ⟨p₂, hp₂⟩ := calculateITE_ok_of_length rng₂ records h
    obtain ⟨hres₁, -⟩ := calculateITE_ok hp₁
    obtain ⟨hres₂, -⟩ := calculateITE_ok hp₂
    refine ⟨p₁, p₂, hp₁, hp₂, ?_⟩
    have key : ∀ rng : ℕ → ℝ,
        (sortResults (attachATE rng (preResults records))).map stripATE =
          List.insertionSort keyRel
            ((preResults records).enum.map fun ip => toITEResult ip.2 0) := by
      intro rng
      rw [sortResults,
        List.map_insertionSort keyRel keyRel stripATE _ fun a _ b _ => Iff.rfl]
      congr 1
      rw [attachATE, List.map_map]
      rfl
    rw [hres₁, hres₂, key rng₁, key rng₂]

/-! ## C10: the analysed key subsets -/

/-- The 16 nutrient keys actually analysed (of the 25 in the data model). -/
def nutrientKeyList : List String :=
  ["omega3_g", "vitamin_e_mg", "vitamin_d_iu", "magnesium_mg", "protein_g",
   "vitamin_b1_mg", "tryptophan_mg", "methionine_mg", "valine_mg",
   "caffeine_mg", "alcohol_g", "iron_mg", "fiber_g", "zinc_mg",
   "saturated_fat_g", "potassium_mg"]

lemma length_flatMap_le {α β : Type*} (l : List α) (f : α → List β) (c : ℕ)
    (h : ∀ a ∈ l, (f a).length ≤ c) : (l.flatMap f).length ≤ l.length * c := by
  induction l with
  | nil => simp
  | cons a t ih =>
    rw [List.flatMap_cons, List.length_append, List.length_cons]
    have h1 := h a (List.mem_cons_self a t)
    have h2 := ih fun x hx => h x (List.mem_cons_of_mem a hx)
    calc (f a).length + (t.flatMap f).length ≤ c + t.length * c := by omega
      _ = (t.length + 1) * c := by ring

/-- **C10.** Every emitted result's `nutrient` is one of the 16 analysed
nutrient keys and its `outcome` one of the 6 analysed outcome keys (the
remaining 9 nutrient fields and 4 outcome fields of the data model are never
analysed), and `ite_results` holds at most `16 * 6 = 96` entries. -/
theorem claim_C10_key_subsets (rng : ℕ → ℝ) (records : List DailyRecord)
    (h : 3 ≤ records.length) :
    ∃ p, calculateITE rng records = Except.ok p ∧
      (∀ r ∈ p.ite_results,
        r.nutrient ∈ nutrientKeyList ∧ r.outcome ∈ outcomeKeyList) ∧
      p.ite_results.length ≤ 96 := by
  obtain ⟨p, hp⟩ := calculateITE_ok_of_length rng records h
  obtain ⟨hres, -⟩ := calculateITE_ok hp
  refine ⟨p, hp, fun r hr => ?_, ?_⟩
  · obtain ⟨i, pre, hpre, rfl⟩ := mem_ite_results hp hr
    obtain ⟨n, hn, o, ho, hpo⟩ := mem_preResults hpre
    obtain ⟨hnut, hout, -⟩ := pairResult_some_spec hpo
    constructor
    · rw [toITEResult_nutrient, hnut]
      have : n.1 ∈ (nutrientEntries records).map Prod.fst :=
        List.mem_map_of_mem Prod.fst hn
      simpa [nutrientEntries, nutrientKeyList] using this
    · rw [toITEResult_outcome, hout]
      have : o.1 ∈ (outcomeEntries records).map Prod.fst :=
        List.mem_map_of_mem Prod.fst ho
      simpa [outcomeEntries, outcomeKeyList] using this
  · rw [hres, sortResults]
    rw [List.length_insertionSort, attachATE, List.length_map]
    have hel : (preResults records).enum.length = (preResults records).length := by
      simp [List.enum]
    rw [hel]
    have hb : (preResults records).length ≤ 96 := by
      have := length_flatMap_le (nutrientEntries records)
        (fun n => (outcomeEntries records).filterMap fun o =>
          pairResult (mediatorSeriesOf records) n.1 n.2 o.1 o.2) 6
        (fun a _ => le_trans (List.length_filterMap_le _ _) (by simp [outcomeEntries]))
      rw [preResults]
      calc ((nutrientEntries records).flatMap _).length
          ≤ (nutrientEntries records).length * 6 := this
        _ = 96 := by simp [nutrientEntries]
    exact hb

/-! ## Concrete evaluation helpers -/

lemma sqrt_eval (q s : ℝ) (hq : q = s ^ 2) (hs : 0 ≤ s) : Real.sqrt q = s := by
  rw [hq]
  exact Real.sqrt_sq hs

lemma roundTo_eval (d : ℕ) (x : ℝ) (n : ℤ)
    (h1 : (n : ℝ) ≤ x * 10 ^ d + 1 / 2) (h2 : x * 10 ^ d + 1 / 2 < n + 1) :
    roundTo d x = n / 10 ^ d := by
  rw [roundTo, round_eq, Int.floor_eq_iff.mpr ⟨h1, h2⟩]

/-- A pair whose nutrient series is constant is always filtered out
(its correlation is `0 < 0.2`). -/
lemma pairResult_none_of_const_nutrient (c : ℝ) {med : List ℝ} {nk ok : String}
    {ns os : List ℝ} (h : ∀ a ∈ ns, a = c) :
    pairResult med nk ns ok os = none := by
  have hp := pearson_of_const_left os h
  simp [pairResult, hp]
  norm_num

/-- A pair whose outcome series is constant is always filtered out. -/
lemma pairResult_none_of_const_outcome (c : ℝ) {med : List ℝ} {nk ok : String}
    {ns os : List ℝ} (h : ∀ b ∈ os, b = c) :
    pairResult med nk ns ok os = none := by
  have hp := pearson_of_const_right ns h
  simp [pairResult, hp]
  norm_num

@[simp] lemma pairResult_zero_nutrient (med : List ℝ) (nk ok : String)
    (os : List ℝ) :
    pairResult med nk [(0 : ℝ), 0, 0, 0] ok os = none :=
  pairResult_none_of_const_nutrient 0 (by intro a ha; simpa using ha)

@[simp] lemma pairResult_zero_outcome (med : List ℝ) (nk ok : String)
    (ns : List ℝ) :
    pairResult med nk ns ok [(0 : ℝ), 0, 0, 0] = none :=
  pairResult_none_of_const_outcome 0 (by intro a ha; simpa using ha)

lemma pearson_eval (x y : List ℝ) (num dX dY s : ℝ) (hlen : ¬ x.length < 2)
    (hnum : ((x.zip y).map fun p => (p.1 - mean x) * (p.2 - mean y)).sum = num)
    (hdX : (x.map fun a => (a - mean x) ^ 2).sum = dX)
    (hdY : ((x.zip y).map fun p => (p.2 - mean y) ^ 2).sum = dY)
    (hs : dX * dY = s ^ 2) (hs0 : 0 < s) :
    pearsonCorrelation x y = num / s := by
  simp only [pearsonCorrelation]
  rw [if_neg hlen, hnum, hdX, hdY, sqrt_eval _ s hs hs0.le, if_neg hs0.ne']

lemma slope_eval (x y : List ℝ) (num dX : ℝ) (hlen : ¬ x.length < 2)
    (hnum : ((x.zip y).map fun p => (p.1 - mean x) * (p.2 - mean y)).sum = num)
    (hdX : (x.map fun a => (a - mean x) ^ 2).sum = dX) (hdX0 : dX ≠ 0) :
    linearRegressionSlope x y = num / dX := by
  simp only [linearRegressionSlope]
  rw [if_neg hlen, hnum, hdX, if_neg hdX0]

lemma slope_eval_zero_den (x y : List ℝ)
    (hdX : (x.map fun a => (a - mean x) ^ 2).sum = 0) :
    linearRegressionSlope x y = 0 := by
  simp only [linearRegressionSlope]
  rcases Nat.lt_or_ge x.length 2 with h | h
  · rw [if_pos h]
  · rw [if_neg (by omega), hdX, if_pos rfl]

lemma popStd_eval (xs : List ℝ) (s : ℝ)
    (h : (xs.map fun b => (b - mean xs) ^ 2).sum / xs.length = s ^ 2)
    (hs : 0 ≤ s) : popStd xs = s := by
  rw [popStd]
  exact sqrt_eval _ s h hs

lemma zScore_eval (xs : List ℝ) (s : ℝ) (hstd : popStd xs = s) (hs : s ≠ 0) :
    zScore xs = xs.map fun v => (v - mean xs) / s := by
  simp only [zScore]
  rw [hstd, if_neg hs]

/-! ### Concrete series evaluations for the counterexample runs -/

lemma zScore_zeros : zScore [(0 : ℝ), 0, 0, 0] = [0, 0, 0, 0] := by
  have hstd : popStd [(0 : ℝ), 0, 0, 0] = 0 := popStd_eval _ 0 (by norm_num [mean]) le_rfl
  simp [zScore, hstd]

lemma zScore_nsA : zScore [(0 : ℝ), 0, 2, 2] = [-1, -1, 1, 1] := by
  rw [zScore_eval _ 1 (popStd_eval _ 1 (by norm_num [mean]) (by norm_num)) (by norm_num)]
  norm_num [mean]

lemma zScore_osA : zScore [(0 : ℝ), 0, 1/3, 1/3] = [-1, -1, 1, 1] := by
  rw [zScore_eval _ (1/6) (popStd_eval _ (1/6) (by norm_num [mean]) (by norm_num))
    (by norm_num)]
  norm_num [mean]

lemma zScore_nsB : zScore [(0 : ℝ), 0, 4, 4] = [-1, -1, 1, 1] := by
  rw [zScore_eval _ 2 (popStd_eval _ 2 (by norm_num [mean]) (by norm_num)) (by norm_num)]
  norm_num [mean]

lemma zScore_osB : zScore [(7 : ℝ)/2, 7/2, 29/2, 13/2] = [-7/9, -7/9, 5/3, -1/9] := by
  rw [zScore_eval _ (9/2) (popStd_eval _ (9/2) (by norm_num [mean]) (by norm_num))
    (by norm_num)]
  norm_num [mean]

lemma zScore_osC :
    zScore [(25001 : ℝ)/25000, 25001/25000, 25001/6250, 0] = [-1/3, -1/3, 5/3, -1] := by
  rw [zScore_eval _ (75003/50000)
    (popStd_eval _ (75003/50000) (by norm_num [mean]) (by norm_num)) (by norm_num)]
  norm_num [mean]

lemma slope_zAA : linearRegressionSlope [(-1 : ℝ), -1, 1, 1] [(-1 : ℝ), -1, 1, 1] = 1 := by
  rw [slope_eval _ _ 4 4 (by norm_num) (by norm_num [mean]) (by norm_num [mean]) (by norm_num)]
  norm_num

lemma slope_zA0 : linearRegressionSlope [(-1 : ℝ), -1, 1, 1] [(0 : ℝ), 0, 0, 0] = 0 := by
  rw [slope_eval _ _ 0 4 (by norm_num) (by norm_num [mean]) (by norm_num [mean]) (by norm_num)]
  norm_num

lemma slope_z0 (y : List ℝ) : linearRegressionSlope [(0 : ℝ), 0, 0, 0] y = 0 :=
  slope_eval_zero_den _ y (by norm_num [mean])

lemma slope_zAB :
    linearRegressionSlope [(-1 : ℝ), -1, 1, 1] [(-7 : ℝ)/9, -7/9, 5/3, -1/9] = 7/9 := by
  rw [slope_eval _ _ (28/9) 4 (by norm_num) (by norm_num [mean]) (by norm_num [mean])
    (by norm_num)]
  norm_num

lemma slope_zAC :
    linearRegressionSlope [(-1 : ℝ), -1, 1, 1] [(-1 : ℝ)/3, -1/3, 5/3, -1] = 1/3 := by
  rw [slope_eval _ _ (4/3) 4 (by norm_num) (by norm_num [mean]) (by norm_num [mean])
    (by norm_num)]
  norm_num

lemma pearson_A :
    pearsonCorrelation [(0 : ℝ), 0, 2, 2] [(0 : ℝ), 0, 1/3, 1/3] = 1 := by
  rw [pearson_eval _ _ (2/3) 4 (1/9) (2/3) (by norm_num) (by norm_num [mean])
    (by norm_num [mean]) (by norm_num [mean]) (by norm_num) (by norm_num)]
  norm_num

lemma pearson_B :
    pearsonCorrelation [(0 : ℝ), 0, 4, 4] [(7 : ℝ)/2, 7/2, 29/2, 13/2] = 7/9 := by
  rw [pearson_eval _ _ 28 16 81 36 (by norm_num) (by norm_num [mean])
    (by norm_num [mean]) (by norm_num [mean]) (by norm_num) (by norm_num)]
  norm_num

lemma pearson_C :
    pearsonCorrelation [(0 : ℝ), 0, 4, 4]
      [(25001 : ℝ)/25000, 25001/25000, 25001/6250, 0] = 1/3 := by
  rw [pearson_eval _ _ (25001/6250) 16 (5625450009/625000000) (75003/6250)
    (by norm_num) (by norm_num [mean]) (by norm_num [mean]) (by norm_num [mean])
    (by norm_num) (by norm_num)]
  norm_num

lemma scaled_A :
    computeMediatorAdjustedITE (zScore [(0 : ℝ), 0, 2, 2]) (zScore [(0 : ℝ), 0, 0, 0])
      (zScore [(0 : ℝ), 0, 1/3, 1/3]) * popStd [(0 : ℝ), 0, 1/3, 1/3] = 1/6 := by
  rw [zScore_nsA, zScore_zeros, zScore_osA,
    popStd_eval _ (1/6) (by norm_num [mean]) (by norm_num)]
  simp only [computeMediatorAdjustedITE]
  rw [slope_zAA, slope_zA0, slope_z0]
  norm_num

lemma scaled_B :
    computeMediatorAdjustedITE (zScore [(0 : ℝ), 0, 4, 4]) (zScore [(0 : ℝ), 0, 0, 0])
      (zScore [(7 : ℝ)/2, 7/2, 29/2, 13/2]) * popStd [(7 : ℝ)/2, 7/2, 29/2, 13/2] = 7/2 := by
  rw [zScore_nsB, zScore_zeros, zScore_osB,
    popStd_eval _ (9/2) (by norm_num [mean]) (by norm_num)]
  simp only [computeMediatorAdjustedITE]
  rw [slope_zAB, slope_zA0, slope_z0]
  norm_num

lemma scaled_C :
    computeMediatorAdjustedITE (zScore [(0 : ℝ), 0, 4, 4]) (zScore [(0 : ℝ), 0, 0, 0])
      (zScore [(25001 : ℝ)/25000, 25001/25000, 25001/6250, 0]) *
      popStd [(25001 : ℝ)/25000, 25001/25000, 25001/6250, 0] = 25001/50000 := by
  rw [zScore_nsB, zScore_zeros, zScore_osC,
    popStd_eval _ (75003/50000) (by norm_num [mean]) (by norm_num)]
  simp only [computeMediatorAdjustedITE]
  rw [slope_zAC, slope_zA0, slope_z0]
  norm_num

lemma roundTo_A4 : roundTo 4 ((1 : ℝ)/6) = 1667/10000 := by
  rw [roundTo_eval 4 (1/6) 1667 (by norm_num) (by norm_num)]
  norm_num

lemma roundTo_A3 : roundTo 3 ((99 : ℝ)/100) = 99/100 := by
  rw [roundTo_eval 3 (99/100) 990 (by norm_num) (by norm_num)]
  norm_num

lemma roundTo_B4 : roundTo 4 ((7 : ℝ)/2) = 7/2 := by
  rw [roundTo_eval 4 (7/2) 35000 (by norm_num) (by norm_num)]
  norm_num

lemma roundTo_B3 : roundTo 3 ((7 : ℝ)/9) = 389/500 := by
  rw [roundTo_eval 3 (7/9) 778 (by norm_num) (by norm_num)]
  norm_num

lemma roundTo_Cv4 : roundTo 4 ((25001 : ℝ)/50000) = 1/2 := by
  rw [roundTo_eval 4 (25001/50000) 5000 (by norm_num) (by norm_num)]
  norm_num

lemma roundTo_Cv3 : roundTo 3 ((1 : ℝ)/3) = 333/1000 := by
  rw [roundTo_eval 3 (1/3) 333 (by norm_num) (by norm_num)]
  norm_num

/-- A daily record that is all zero except `omega3_g` and `deep_sleep_min`. -/
noncomputable def mkRecord (om3 ds : ℝ) : DailyRecord :=
  { date := ""
    nutrition := { zeroNutrition with omega3_g := om3 }
    health_outcomes := { zeroOutcome with deep_sleep_min := ds } }

/-- 4-day input: omega-3 series `[0, 0, 2, 2]`, deep-sleep series
`[0, 0, 1/3, 1/3]`, everything else constant zero.  The only surviving pair is
(omega3_g, deep_sleep_min), with scaled effect exactly `1/6`. -/
noncomputable def recordsC1 : List DailyRecord :=
  [mkRecord 0 0, mkRecord 0 0, mkRecord 2 (1/3), mkRecord 2 (1/3)]

/-- 4-day input with deep-sleep series `[7/2, 7/2, 29/2, 13/2]`: the surviving
pair has `pearson = 7/9`, which rounds at 3 decimals. -/
noncomputable def recordsC3 : List DailyRecord :=
  [mkRecord 0 (7/2), mkRecord 0 (7/2), mkRecord 4 (29/2), mkRecord 4 (13/2)]

/-- 4-day input whose surviving pair has scaled effect `0.50002`: direction is
`positive` but the stored `ite_value` rounds down to exactly `0.5`. -/
noncomputable def recordsC4 : List DailyRecord :=
  [mkRecord 0 (25001/25000), mkRecord 0 (25001/25000),
   mkRecord 4 (25001/6250), mkRecord 4 0]

/-- The single surviving `PreResult` of a run on `recordsC1`. -/
noncomputable def preC1 : PreResult :=
  { nutrient := "omega3_g"
    nutrient_label := "Omega-3 지방산"
    unit := "g"
    outcome := "deep_sleep_min"
    outcome_label := "깊은 수면 시간(분)"
    scaledITE := 1/6
    ite_value := 1667/10000
    direction := Direction.neutral
    confidence := 99/100
    causal_path := "Omega-3 지방산 섭취 → 항염증 효과 → 심박 변이율 및 깊은 수면 시간(분) 영향" }

/-- The single surviving `PreResult` of a run on `recordsC3`. -/
noncomputable def preC3 : PreResult :=
  { nutrient := "omega3_g"
    nutrient_label := "Omega-3 지방산"
    unit := "g"
    outcome := "deep_sleep_min"
    outcome_label := "깊은 수면 시간(분)"
    scaledITE := 7/2
    ite_value := 7/2
    direction := Direction.positive
    confidence := 389/500
    causal_path := "Omega-3 지방산 섭취 → 항염증 효과 → 심박 변이율 및 깊은 수면 시간(분) 영향" }

/-- The single surviving `PreResult` of a run on `recordsC4`. -/
noncomputable def preC4 : PreResult :=
  { nutrient := "omega3_g"
    nutrient_label := "Omega-3 지방산"
    unit := "g"
    outcome := "deep_sleep_min"
    outcome_label := "깊은 수면 시간(분)"
    scaledITE := 25001/50000
    ite_value := 1/2
    direction := Direction.positive
    confidence := 333/1000
    causal_path := "Omega-3 지방산 섭취 → 항염증 효과 → 심박 변이율 및 깊은 수면 시간(분) 영향" }

lemma pairResult_eval_C1 :
    pairResult [(0 : ℝ), 0, 0, 0] "omega3_g" [(0 : ℝ), 0, 2, 2] "deep_sleep_min"
      [(0 : ℝ), 0, 1/3, 1/3] = some preC1 := by
  have habs : |(1 : ℝ)| = 1 := abs_one
  have hmin : min (1 : ℝ) 0.99 = 99/100 := by
    rw [min_eq_right (by norm_num)]
    norm_num
  simp only [pairResult, pearson_A, habs, scaled_A]
  rw [if_neg (by norm_num), hmin, roundTo_A4, roundTo_A3]
  norm_num [preC1, causalPathFor, nutrientLabelTable, outcomeLabelTable]
  rfl

lemma pairResult_eval_C3 :
    pairResult [(0 : ℝ), 0, 0, 0] "omega3_g" [(0 : ℝ), 0, 4, 4] "deep_sleep_min"
      [(7 : ℝ)/2, 7/2, 29/2, 13/2] = some preC3 := by
  have habs : |(7 : ℝ)/9| = 7/9 := abs_of_nonneg (by norm_num)
  have hmin : min ((7 : ℝ)/9) 0.99 = 7/9 := min_eq_left (by norm_num)
  simp only [pairResult, pearson_B, habs, scaled_B]
  rw [if_neg (by norm_num), hmin, roundTo_B4, roundTo_B3]
  norm_num [preC3, causalPathFor, nutrientLabelTable, outcomeLabelTable]
  rfl

lemma pairResult_eval_C4 :
    pairResult [(0 : ℝ), 0, 0, 0] "omega3_g" [(0 : ℝ), 0, 4, 4] "deep_sleep_min"
      [(25001 : ℝ)/25000, 25001/25000, 25001/6250, 0] = some preC4 := by
  have habs : |(1 : ℝ)/3| = 1/3 := abs_of_nonneg (by norm_num)
  have hmin : min ((1 : ℝ)/3) 0.99 = 1/3 := min_eq_left (by norm_num)
  simp only [pairResult, pearson_C, habs, scaled_C]
  rw [if_neg (by norm_num), hmin, roundTo_Cv4, roundTo_Cv3]
  norm_num [preC4, causalPathFor, nutrientLabelTable, outcomeLabelTable]
  rfl

lemma preResults_C1 : preResults recordsC1 = [preC1] := by
  simp only [preResults, recordsC1, mkRecord, zeroNutrition, zeroOutcome,
    mediatorSeriesOf, nutrientEntries, outcomeEntries,
    List.map_cons, List.map_nil, List.flatMap_cons, List.flatMap_nil,
    List.filterMap_cons, pairResult_zero_nutrient, pairResult_zero_outcome,
    pairResult_eval_C1, List.filterMap_nil, List.cons_append, List.append_nil,
    List.nil_append]

lemma preResults_C3 : preResults recordsC3 = [preC3] := by
  simp only [preResults, recordsC3, mkRecord, zeroNutrition, zeroOutcome,
    mediatorSeriesOf, nutrientEntries, outcomeEntries,
    List.map_cons, List.map_nil, List.flatMap_cons, List.flatMap_nil,
    List.filterMap_cons, pairResult_zero_nutrient, pairResult_zero_outcome,
    pairResult_eval_C3, List.filterMap_nil, List.cons_append, List.append_nil,
    List.nil_append]

lemma preResults_C4 : preResults recordsC4 = [preC4] := by
  simp only [preResults, recordsC4, mkRecord, zeroNutrition, zeroOutcome,
    mediatorSeriesOf, nutrientEntries, outcomeEntries,
    List.map_cons, List.map_nil, List.flatMap_cons, List.flatMap_nil,
    List.filterMap_cons, pairResult_zero_nutrient, pairResult_zero_outcome,
    pairResult_eval_C4, List.filterMap_nil, List.cons_append, List.append_nil,
    List.nil_append]

/-- On a run whose surviving pre-result list is a singleton, the profile's
`ite_results` is that single record with its attached `ate_value`. -/
lemma ite_results_single {rng : ℕ → ℝ} {records : List DailyRecord}
    {pre : PreResult} {p : PersonalNutritionProfile}
    (hp : calculateITE rng records = Except.ok p)
    (hpre : preResults records = [pre]) :
    p.ite_results =
      [toITEResult pre (roundTo 4 (pre.scaledITE * 0.7 + (rng 0 - 0.5) * 2))] := by
  obtain ⟨hres, -⟩ := calculateITE_ok hp
  rw [hres, hpre]
  simp [sortResults, attachATE, List.enum, List.enumFrom]

/-- **C1, counterexample.** On the concrete 4-day input `recordsC1` the engine
emits the pair (omega3_g, deep_sleep_min) whose exact mediator-adjusted
rescaled effect is `1/6`, but the stored `ite_value` is the 4-decimal rounding
`0.1667 ≠ 1/6`: the emitted `ite_value` does **not** equal the claimed
product. -/
theorem claim_C1_counterexample :
    ∃ p, calculateITE rng0 recordsC1 = Except.ok p ∧
      ∃ r ∈ p.ite_results,
        r.nutrient = "omega3_g" ∧ r.outcome = "deep_sleep_min" ∧
        r.ite_value ≠
          (linearRegressionSlope (zScore (recordsC1.map fun x => x.nutrition.omega3_g))
             (zScore (recordsC1.map fun x => x.health_outcomes.deep_sleep_min)) +
           0.3 *
             (linearRegressionSlope
                (zScore (recordsC1.map fun x => x.nutrition.omega3_g))
                (zScore (mediatorSeriesOf recordsC1)) *
              linearRegressionSlope (zScore (mediatorSeriesOf recordsC1))
                (zScore (recordsC1.map fun x => x.health_outcomes.deep_sleep_min)))) *
          popStd (recordsC1.map fun x => x.health_outcomes.deep_sleep_min) := by
  obtain ⟨p, hp⟩ := calculateITE_ok_of_length rng0 recordsC1 (by norm_num [recordsC1])
  have hres := ite_results_single hp preResults_C1
  refine ⟨p, hp, toITEResult preC1 (roundTo 4 (preC1.scaledITE * 0.7 + (rng0 0 - 0.5) * 2)),
    by rw [hres]; exact List.mem_singleton_self _, rfl, rfl, ?_⟩
  have hsn : (recordsC1.map fun x => x.nutrition.omega3_g) = [(0 : ℝ), 0, 2, 2] := by
    simp [recordsC1, mkRecord, zeroNutrition]
  have hso : (recordsC1.map fun x => x.health_outcomes.deep_sleep_min)
      = [(0 : ℝ), 0, 1/3, 1/3] := by
    simp [recordsC1, mkRecord, zeroOutcome]
  have hsm : mediatorSeriesOf recordsC1 = [(0 : ℝ), 0, 0, 0] := by
    simp [mediatorSeriesOf, recordsC1, mkRecord, zeroOutcome]
  rw [toITEResult_ite_value, hsn, hso, hsm, ← computeMediatorAdjustedITE_eq, scaled_A]
  show preC1.ite_value ≠ 1/6
  rw [preC1]
  norm_num

/-- **C3, counterexample.** On the concrete 4-day input `recordsC3` the
surviving pair has `|pearson| = 7/9 = 0.777…`; the stored confidence is the
3-decimal rounding `0.778 ≠ min(7/9, 0.99)`: the emitted `confidence` does
**not** equal `min(|pearson|, 0.99)` exactly. -/
theorem claim_C3_counterexample :
    ∃ p, calculateITE rng0 recordsC3 = Except.ok p ∧
      ∃ r ∈ p.ite_results,
        r.nutrient = "omega3_g" ∧ r.outcome = "deep_sleep_min" ∧
        r.confidence ≠
          min |pearsonCorrelation (recordsC3.map fun x => x.nutrition.omega3_g)
                (recordsC3.map fun x => x.health_outcomes.deep_sleep_min)| 0.99 := by
  obtain ⟨p, hp⟩ := calculateITE_ok_of_length rng0 recordsC3 (by norm_num [recordsC3])
  have hres := ite_results_single hp preResults_C3
  refine ⟨p, hp, toITEResult preC3 (roundTo 4 (preC3.scaledITE * 0.7 + (rng0 0 - 0.5) * 2)),
    by rw [hres]; exact List.mem_singleton_self _, rfl, rfl, ?_⟩
  have hsn : (recordsC3.map fun x => x.nutrition.omega3_g) = [(0 : ℝ), 0, 4, 4] := by
    simp [recordsC3, mkRecord, zeroNutrition]
  have hso : (recordsC3.map fun x => x.health_outcomes.deep_sleep_min)
      = [(7 : ℝ)/2, 7/2, 29/2, 13/2] := by
    simp [recordsC3, mkRecord, zeroOutcome]
  rw [toITEResult_confidence, hsn, hso, pearson_B,
    abs_of_nonneg (by norm_num : (0 : ℝ) ≤ 7/9), min_eq_left (by norm_num)]
  show preC3.confidence ≠ 7/9
  rw [preC3]
  norm_num

/-- **C4, counterexample.** On the concrete 4-day input `recordsC4` the
surviving pair has unrounded scaled effect `0.50002 > 0.5`, so its direction
is `positive`, but the stored `ite_value` rounds to exactly `0.5`: a result
with `direction = positive` whose `ite_value` is **not** `> 0.5`, refuting the
biconditional on the stored field. -/
theorem claim_C4_counterexample :
    ∃ p, calculateITE rng0 recordsC4 = Except.ok p ∧
      ∃ r ∈ p.ite_results,
        r.direction = Direction.positive ∧ ¬ (0.5 < r.ite_value) := by
  obtain ⟨p, hp⟩ := calculateITE_ok_of_length rng0 recordsC4 (by norm_num [recordsC4])
  have hres := ite_results_single hp preResults_C4
  refine ⟨p, hp, toITEResult preC4 (roundTo 4 (preC4.scaledITE * 0.7 + (rng0 0 - 0.5) * 2)),
    by rw [hres]; exact List.mem_singleton_self _, rfl, ?_⟩
  rw [toITEResult_ite_value]
  show ¬ ((0.5 : ℝ) < preC4.ite_value)
  rw [preC4]
  norm_num

/-! ## Witnesses at the concrete input `recordsC1` -/

/-- A second fixed random stream, distinct from `rng0`. -/
noncomputable def rng1 : ℕ → ℝ := fun _ => 1 / 4

/-- Witness for the amended C1 at a concrete input. -/
theorem claim_C1_ite_formula_witness :
    ∃ p, calculateITE rng0 recordsC1 = Except.ok p ∧
      ∀ r ∈ p.ite_results,
        ∃ n ∈ nutrientEntries recordsC1, ∃ o ∈ outcomeEntries recordsC1,
          r.nutrient = n.1 ∧ r.outcome = o.1 ∧
          r.ite_value = roundTo 4
            ((linearRegressionSlope (zScore n.2) (zScore o.2) +
              0.3 * (linearRegressionSlope (zScore n.2)
                       (zScore (mediatorSeriesOf recordsC1)) *
                     linearRegressionSlope (zScore (mediatorSeriesOf recordsC1))
                       (zScore o.2))) * popStd o.2) :=
  claim_C1_ite_formula rng0 recordsC1 (by norm_num [recordsC1])

/-- Witness for the amended C3 at a concrete input. -/
theorem claim_C3_confidence_witness :
    ∃ p, calculateITE rng0 recordsC1 = Except.ok p ∧
      ∀ r ∈ p.ite_results,
        0 ≤ r.confidence ∧ r.confidence ≤ 0.99 ∧
        ∃ n ∈ nutrientEntries recordsC1, ∃ o ∈ outcomeEntries recordsC1,
          r.nutrient = n.1 ∧ r.outcome = o.1 ∧
          r.confidence = roundTo 3 (min |pearsonCorrelation n.2 o.2| 0.99) ∧
          0.2 ≤ |pearsonCorrelation n.2 o.2| :=
  claim_C3_confidence rng0 recordsC1 (by norm_num [recordsC1])

/-- Witness for the amended C4 at a concrete input. -/
theorem claim_C4_direction_witness :
    ∃ p, calculateITE rng0 recordsC1 = Except.ok p ∧
      ∀ r ∈ p.ite_results,
        ∃ n ∈ nutrientEntries recordsC1, ∃ o ∈ outcomeEntries recordsC1, ∃ E : ℝ,
          E = computeMediatorAdjustedITE (zScore n.2)
                (zScore (mediatorSeriesOf recordsC1)) (zScore o.2) * popStd o.2 ∧
          r.nutrient = n.1 ∧ r.outcome = o.1 ∧
          (r.direction = Direction.positive ↔ 0.5 < E) ∧
          (r.direction = Direction.negative ↔ E < -0.5) ∧
          (r.direction = Direction.neutral ↔ ¬ 0.5 < E ∧ ¬ E < -0.5) ∧
          r.ite_value = roundTo 4 E :=
  claim_C4_direction rng0 recordsC1 (by norm_num [recordsC1])

/-- Witness for C5 at a concrete input. -/
theorem claim_C5_sorting_witness :
    ∃ p, calculateITE rng0 recordsC1 = Except.ok p ∧
      p.ite_results.Pairwise
        (fun a b => b.confidence * |b.ite_value| ≤ a.confidence * |a.ite_value|) ∧
      p.ite_results.Perm (attachATE rng0 (preResults recordsC1)) ∧
      ∀ c, List.Sublist c (attachATE rng0 (preResults recordsC1)) →
        c.Pairwise
          (fun a b => b.confidence * |b.ite_value| ≤ a.confidence * |a.ite_value|) →
        List.Sublist c p.ite_results :=
  claim_C5_sorting rng0 recordsC1 (by norm_num [recordsC1])

/-- Witness for C6 at a concrete input. -/
theorem claim_C6_top_nutrients_witness :
    ∃ p, calculateITE rng0 recordsC1 = Except.ok p ∧
      (∀ k ∈ outcomeKeyList, ∃ L,
        (k, L) ∈ p.top_nutrients_for_outcome ∧
        L = (p.ite_results.filter fun r => r.outcome == k).take 5 ∧
        L.length ≤ 5 ∧
        List.Sublist L (p.ite_results.filter fun r => r.outcome == k) ∧
        List.Sublist L p.ite_results ∧
        ∀ r ∈ L, r.outcome = k) ∧
      ∀ e ∈ p.top_nutrients_for_outcome, e.1 ∈ outcomeKeyList :=
  claim_C6_top_nutrients rng0 recordsC1 (by norm_num [recordsC1])

/-- Witness for C9 at a concrete input, with two distinct random streams. -/
theorem claim_C9_determinism_witness :
    ((rng0 = rng1) → calculateITE rng0 recordsC1 = calculateITE rng1 recordsC1) ∧
    ∃ p₁ p₂, calculateITE rng0 recordsC1 = Except.ok p₁ ∧
      calculateITE rng1 recordsC1 = Except.ok p₂ ∧
      p₁.ite_results.map stripATE = p₂.ite_results.map stripATE :=
  claim_C9_determinism recordsC1 rng0 rng1 (by norm_num [recordsC1])

/-- Witness for C10 at a concrete input. -/
theorem claim_C10_key_subsets_witness :
    ∃ p, calculateITE rng0 recordsC1 = Except.ok p ∧
      (∀ r ∈ p.ite_results,
        r.nutrient ∈ nutrientKeyList ∧ r.outcome ∈ outcomeKeyList) ∧
      p.ite_results.length ≤ 96 :=
  claim_C10_key_subsets rng0 recordsC1 (by norm_num [recordsC1])

end NutriFlow
